import Mathlib

/-!
Shallow embedding of `app/enquiries/common/datahub_utils.py`: the
reference-data fetch/cache layer (`_dh_fetch_metadata`, `dh_fetch_metadata`),
the field mapper (`map_to_datahub_id`, `get_dh_id`) and the investment
submission orchestrator (`dh_investment_create`).

Python exceptions are modelled by `Except PyErr`; remote HTTP traffic is an
oracle (`World`) supplying each request's outcome; JSON objects read by this
code are string-valued association lists (`Entry`), matching the fields the
code actually accesses.
-/

namespace DH

/-- Python exception classes that the embedded code can raise. -/
inductive PyErr where
  | keyError (key : String)
  | attributeError (msg : String)
  | assertionError
  | typeError (msg : String)
  | requestException (msg : String)
  deriving DecidableEq, Repr

/-- A JSON object as read by this code: string-valued fields keyed by name. -/
abbrev Entry := List (String × String)

/-- Pure association-list lookup (the value of `d[k]` when present). -/
def keyVal (d : Entry) (k : String) : Option String :=
  (d.find? (fun p => p.1 == k)).map (fun p => p.2)

/-- Python dictionary subscript `d[k]`: raises `KeyError` when absent. -/
def dictGet (d : Entry) (k : String) : Except PyErr String :=
  match keyVal d k with
  | some v => .ok v
  | none => .error (.keyError k)

/-- A metadata dictionary: category name to its list of entries. -/
abbrev Metadata := List (String × List Entry)

/-- Pure lookup of a metadata category. -/
def lookupCat (m : Metadata) (cat : String) : Option (List Entry) :=
  (m.find? (fun p => p.1 == cat)).map (fun p => p.2)

/-- Metadata subscript `dh_metadata[dh_category]`: raises `KeyError` when the
category is absent (e.g. recorded in the failed set of a partial refresh). -/
def metaGet (m : Metadata) (cat : String) : Except PyErr (List Entry) :=
  match lookupCat m cat with
  | some v => .ok v
  | none => .error (.keyError cat)

/-- `list(filter(lambda d: d[target_key] == refdata_value, entries))`:
the whole iterable is forced, so an entry missing `target_key` raises
`KeyError` even if it sits after a match. -/
def filterByKey (entries : List Entry) (key val : String) :
    Except PyErr (List Entry) :=
  match entries with
  | [] => .ok []
  | d :: rest =>
    match dictGet d key with
    | .error e => .error e
    | .ok v =>
      match filterByKey rest key val with
      | .error e => .error e
      | .ok tail => .ok (if v == val then d :: tail else tail)

/-- `map_to_datahub_id(refdata_value, dh_metadata, dh_category, target_key)`
from the source: subscript the category, filter entries whose `target_key`
field equals `refdata_value`, return the first match's `id` or `None`. -/
def map_to_datahub_id (refdata_value : String) (dh_metadata : Metadata)
    (dh_category : String) (target_key : String) :
    Except PyErr (Option String) :=
  match metaGet dh_metadata dh_category with
  | .error e => .error e
  | .ok cat =>
    match filterByKey cat target_key refdata_value with
    | .error e => .error e
    | .ok dh_data =>
      match dh_data with
      | [] => .ok none
      | d :: _ =>
        match dictGet d "id" with
        | .error e => .error e
        | .ok i => .ok (some i)

/-- `get_dh_id(metadata_items, name)` from the source: filter by `name`,
`assert len(item) == 1` (raises `AssertionError` otherwise), return
`item[0]["id"]`. -/
def get_dh_id (metadata_items : List Entry) (name : String) :
    Except PyErr String :=
  match filterByKey metadata_items "name" name with
  | .error e => .error e
  | .ok item =>
    match item with
    | [d] => dictGet d "id"
    | _ => .error .assertionError

/-- Outcome of one `requests.get` against a metadata endpoint:
either the call raises (`requests` transport exception, uncaught in
`_dh_fetch_metadata`), or it returns a `Response` whose `ok` flag and parsed
JSON body are given. -/
inductive FetchOutcome where
  | raises (msg : String)
  | response (ok : Bool) (body : List Entry)
  deriving DecidableEq, Repr

/-- The ten fixed metadata endpoint names (`DATA_HUB_METADATA_ENDPOINTS`). -/
def DATA_HUB_METADATA_ENDPOINTS : List String :=
  ["country", "fdi-type", "investment-investor-type", "investment-involvement",
   "investment-project-stage", "investment-specific-programme",
   "investment-type", "referral-source-activity", "referral-source-website",
   "sector"]

/-- The metadata dictionary built by `_dh_fetch_metadata`: it starts as the
dict with the single key `failed` mapped to an empty list, and gains one
category key per successful endpoint fetch. -/
structure MetadataResult where
  failed : List String
  cats : Metadata
  deriving DecidableEq, Repr

/-- The fetch loop of `_dh_fetch_metadata`: for each endpoint in order,
`requests.get`; an `ok` response stores `response.json()` under the endpoint
name, a non-`ok` response appends the endpoint to `failed`, and a raised
transport exception propagates (nothing in `_dh_fetch_metadata` catches it). -/
def fetchLoop (fetch : String → FetchOutcome) :
    List String → MetadataResult → Except PyErr MetadataResult
  | [], acc => .ok acc
  | e :: rest, acc =>
    match fetch e with
    | .raises msg => .error (.requestException msg)
    | .response ok body =>
      if ok then fetchLoop fetch rest { acc with cats := acc.cats ++ [(e, body)] }
      else fetchLoop fetch rest { acc with failed := acc.failed ++ [e] }

/-- `_dh_fetch_metadata()`: iterate the ten endpoints starting from
the dict holding only an empty `failed` list. -/
def dh_fetch_metadata_raw (fetch : String → FetchOutcome) :
    Except PyErr MetadataResult :=
  fetchLoop fetch DATA_HUB_METADATA_ENDPOINTS ⟨[], []⟩

/-- `dh_fetch_metadata(cache_key, expiry_secs)`: return the cached dict when
the cache slot holds one (a stored `MetadataResult` always has the `failed`
key, hence is a non-empty, truthy dict), else refresh via
`_dh_fetch_metadata` and cache it. The `try` block re-raises any exception,
so errors propagate unchanged; the cache write itself is not observable by
the claims and is not modelled. -/
def dh_fetch_metadata (cached : Option MetadataResult)
    (fetch : String → FetchOutcome) : Except PyErr MetadataResult :=
  match cached with
  | some md => .ok md
  | none => dh_fetch_metadata_raw fetch

/-- `json.loads` applied to the value returned by `dh_fetch_metadata`.
That value is always a `dict` (either the dict built by
`_dh_fetch_metadata` or the same dict read back from the cache), and
`json.loads` accepts only `str`, `bytes` or `bytearray`, so this call raises
`TypeError` unconditionally. It sits outside the `try` block at line 318 of
the source, so the exception is not converted into a `metadata` error. -/
def json_loads_dict (_ : MetadataResult) : Except PyErr Metadata :=
  .error (.typeError "the JSON object must be str, bytes or bytearray, not dict")

/-- A calendar date (day, month, year), standing for Python `datetime.date`. -/
structure PyDate where
  day : Nat
  month : Nat
  year : Nat
  deriving DecidableEq, Repr

/-- English month name for `strftime` format `%B` (a real `date` always has
`month` between 1 and 12). -/
def monthName (m : Nat) : String :=
  match m with
  | 1 => "January" | 2 => "February" | 3 => "March" | 4 => "April"
  | 5 => "May" | 6 => "June" | 7 => "July" | 8 => "August"
  | 9 => "September" | 10 => "October" | 11 => "November" | 12 => "December"
  | _ => ""

/-- Zero-padded two-digit rendering used by `%d` and `isoformat`. -/
def pad2 (n : Nat) : String :=
  if n < 10 then "0" ++ toString n else toString n

/-- `date.strftime("%d %B %Y")`. -/
def strftime_dBY (d : PyDate) : String :=
  pad2 d.day ++ " " ++ monthName d.month ++ " " ++ toString d.year

/-- `date.isoformat()`. -/
def isoformat (d : PyDate) : String :=
  toString d.year ++ "-" ++ pad2 d.month ++ "-" ++ pad2 d.day

/-- Modelled from the spec: `app.enquiries.ref_data.DatahubProjectStatus` is
not under `src/`; the spec gives the state machine
`NOT_SUBMITTED -> PROSPECT` with the default initial value meaning
"not submitted" and `PROSPECT` the stage assigned on first successful
submission. -/
inductive DatahubProjectStatus where
  | DEFAULT
  | PROSPECT
  deriving DecidableEq, Repr

/-- Modelled from the spec: Django `get_datahub_project_status_display()`
for the status codes above (the display strings themselves live in the
excluded `ref_data` module; no claim depends on their exact text). -/
def statusDisplay : DatahubProjectStatus → String
  | .DEFAULT => "Not submitted"
  | .PROSPECT => "Prospect"

/-- Python truthiness of an optional string field (`None` and the empty
string are falsy). -/
def truthyOpt : Option String → Bool
  | none => false
  | some s => s ≠ ""

/-- The Enquiry fields read or written by `dh_investment_create`.
`date_added_to_datahub` and `dh_company_id` are nullable; the
`*_display` fields stand for the Django `get_<field>_display()` values. -/
structure Enquiry where
  dh_company_id : Option String
  company_name : String
  date_added_to_datahub : Option PyDate
  datahub_project_status : DatahubProjectStatus
  enquirer_first_name : String
  enquirer_last_name : String
  project_description : String
  anonymised_project_description : String
  estimated_land_date : PyDate
  investment_type_display : String
  new_existing_investor_display : String
  investor_involvement_level_display : String
  specific_investment_programme_display : String
  primary_sector_display : String
  crm : Option String
  deriving DecidableEq, Repr

/-- Outcome of one `dh_request` call against a search endpoint: a raised
transport exception, or a returned `Response` with its success flag
(`response.ok`, respectively `status_code == 200` for the adviser search),
its parsed `results` list and its parsed body for the error case. -/
inductive DhResp where
  | raises (msg : String)
  | resp (ok : Bool) (results : List Entry) (errBody : String)
  deriving DecidableEq, Repr

/-- The normalized contact shape built by `dh_contact_search`. -/
structure Contact where
  datahub_id : String
  first_name : String
  last_name : String
  job_title : String
  email : String
  phone : String
  deriving DecidableEq, Repr

/-- One loop iteration of `dh_contact_search`: subscript the remote JSON
object for each copied field (raising `KeyError` when absent). -/
def mkContact (c : Entry) : Except PyErr Contact :=
  match dictGet c "id" with
  | .error e => .error e
  | .ok i =>
    match dictGet c "first_name" with
    | .error e => .error e
    | .ok fn =>
      match dictGet c "last_name" with
      | .error e => .error e
      | .ok ln =>
        match dictGet c "job_title" with
        | .error e => .error e
        | .ok jt =>
          match dictGet c "email" with
          | .error e => .error e
          | .ok em =>
            match dictGet c "telephone_number" with
            | .error e => .error e
            | .ok ph => .ok ⟨i, fn, ln, jt, em, ph⟩

/-- The accumulation loop over `response.json()["results"]`. -/
def mkContacts : List Entry → Except PyErr (List Contact)
  | [] => .ok []
  | c :: rest =>
    match mkContact c with
    | .error e => .error e
    | .ok ct =>
      match mkContacts rest with
      | .error e => .error e
      | .ok tail => .ok (ct :: tail)

/-- `dh_contact_search(contact_name, company_id)` at the response boundary:
a non-`ok` response returns `([], response.json())`, an `ok` response
returns the normalized contacts with no error; a transport exception from
`dh_request` propagates (nothing in the adapter catches it). -/
def dh_contact_search (r : DhResp) :
    Except PyErr (List Contact × Option String) :=
  match r with
  | .raises msg => .error (.requestException msg)
  | .resp ok results errBody =>
    if ok then
      match mkContacts results with
      | .error e => .error e
      | .ok cs => .ok (cs, none)
    else .ok ([], some errBody)

/-- The normalized adviser shape built by `dh_adviser_search`
(`is_active` is copied but never read downstream; its JSON boolean is kept
as its string rendering). -/
structure Adviser where
  datahub_id : String
  name : String
  is_active : String
  deriving DecidableEq, Repr

/-- One loop iteration of `dh_adviser_search`. -/
def mkAdviser (a : Entry) : Except PyErr Adviser :=
  match dictGet a "id" with
  | .error e => .error e
  | .ok i =>
    match dictGet a "first_name" with
    | .error e => .error e
    | .ok n =>
      match dictGet a "is_active" with
      | .error e => .error e
      | .ok act => .ok ⟨i, n, act⟩

/-- The accumulation loop over the adviser `results`. -/
def mkAdvisers : List Entry → Except PyErr (List Adviser)
  | [] => .ok []
  | a :: rest =>
    match mkAdviser a with
    | .error e => .error e
    | .ok ad =>
      match mkAdvisers rest with
      | .error e => .error e
      | .ok tail => .ok (ad :: tail)

/-- `dh_adviser_search(adviser_name)` at the response boundary (the success
test in the source is `status_code == 200`, carried here by the `ok` flag). -/
def dh_adviser_search (r : DhResp) :
    Except PyErr (List Adviser × Option String) :=
  match r with
  | .raises msg => .error (.requestException msg)
  | .resp ok results errBody =>
    if ok then
      match mkAdvisers results with
      | .error e => .error e
      | .ok as_ => .ok (as_, none)
    else .ok ([], some errBody)

/-- The investment-creation payload assembled by `dh_investment_create`,
with the mapped fields kept optional exactly where `map_to_datahub_id` may
yield `None`, and the two fixed placeholder identifiers from the source. -/
structure Payload where
  name : String
  investor_company : String
  description : String
  anonymous_description : String
  estimated_land_date : String
  investment_type : String
  fdi_type : Option String
  stage : String
  investor_type : Option String
  level_of_involvement : Option String
  specific_programme : Option String
  client_contacts : List String
  client_relationship_manager : String
  sector : Option String
  business_activities : List String
  referral_source_adviser : String
  referral_source_activity : String
  referral_source_activity_website : String
  deriving DecidableEq, Repr

/-- Outcome of the final `dh_request("POST", DATA_HUB_INVESTMENT_CREATE_URL,
payload)`: a raised exception (caught by the orchestrator) or a returned
`Response` carrying its `ok` flag. -/
inductive CreateOutcome where
  | raises (msg : String)
  | resp (ok : Bool)
  deriving DecidableEq, Repr

/-- One accumulated error of the submission response: a field tag and its
message (the message of a search-step error is the raw remote body). -/
structure SubmissionError where
  key : String
  msg : String
  deriving DecidableEq, Repr

/-- The `response` dict built by `dh_investment_create`: the `errors` list
and the optional `result` entry, recorded as the `ok` flag of the returned
creation response. -/
structure SubmissionResult where
  errors : List SubmissionError
  result : Option Bool
  deriving DecidableEq, Repr

/-- A completed run of `dh_investment_create`: the returned response dict,
the enquiry state after the run, and whether `enquiry.save()` was called. -/
structure RunOutcome where
  resp : SubmissionResult
  enquiry : Enquiry
  saved : Bool
  deriving DecidableEq, Repr

/-- The external world of one orchestrator run: the metadata cache slot, the
per-endpoint vocabulary fetch outcomes, the contact-search response (a
function of name and company id), the adviser-search response (a function of
the searched name), the creation response (a function of the payload), and
the current date (`date.today()`). -/
structure World where
  cache : Option MetadataResult
  fetch : String → FetchOutcome
  contact_resp : String → String → DhResp
  adviser_resp : String → DhResp
  create_resp : Payload → CreateOutcome
  today : PyDate

/-- A returned response with a single error and no mutation. -/
def errRun (key msg : String) (enquiry : Enquiry) : RunOutcome :=
  ⟨⟨[⟨key, msg⟩], none⟩, enquiry, false⟩

/-- `dh_investment_create` from the contact search on (source lines
327-413): assemble the payload in source order, interleaved with its
effectful lookups, then the adviser steps, then the final request and the
success-only state mutation. A `KeyError` from a missing vocabulary
category, an `AssertionError` from `get_dh_id` and a transport exception
from a search adapter all propagate: only the final request sits in a
`try` block. -/
def dh_investment_create_rest (w : World) (enquiry : Enquiry)
    (dh_metadata : Metadata) : Except PyErr RunOutcome :=
  let company_id := enquiry.dh_company_id.getD ""
  let full_name := enquiry.enquirer_first_name ++ " " ++ enquiry.enquirer_last_name
  match dh_contact_search (w.contact_resp full_name company_id) with
  | .error e => .error e
  | .ok (contacts, some err) =>
    let _ := contacts
    .ok (errRun "contact_search" err enquiry)
  | .ok (contacts, none) =>
    -- `primary = not contacts` is computed but unused (contact creation is
    -- commented out in the source)
    let _primary := contacts.isEmpty
    match metaGet dh_metadata "investment-type" with
    | .error e => .error e
    | .ok invTypeItems =>
      match get_dh_id invTypeItems "FDI" with
      | .error e => .error e
      | .ok investment_type =>
        match map_to_datahub_id enquiry.investment_type_display dh_metadata
            "fdi-type" "name" with
        | .error e => .error e
        | .ok fdi_type =>
          match metaGet dh_metadata "investment-project-stage" with
          | .error e => .error e
          | .ok stageItems =>
            match get_dh_id stageItems "Prospect" with
            | .error e => .error e
            | .ok stage =>
              match map_to_datahub_id enquiry.new_existing_investor_display
                  dh_metadata "investment-investor-type" "name" with
              | .error e => .error e
              | .ok investor_type =>
                match map_to_datahub_id
                    enquiry.investor_involvement_level_display dh_metadata
                    "investment-involvement" "name" with
                | .error e => .error e
                | .ok level_of_involvement =>
                  match map_to_datahub_id
                      enquiry.specific_investment_programme_display dh_metadata
                      "investment-specific-programme" "name" with
                  | .error e => .error e
                  | .ok specific_programme =>
                    if truthyOpt enquiry.crm then
                      match dh_adviser_search
                          (w.adviser_resp (enquiry.crm.getD "")) with
                      | .error e => .error e
                      | .ok (_, some err) =>
                        .ok (errRun "adviser_search" err enquiry)
                      | .ok (advisers, none) =>
                        match advisers with
                        | [] =>
                          .ok (errRun "adviser"
                            ("Adviser " ++ enquiry.crm.getD "" ++ " not found")
                            enquiry)
                        | adviser0 :: _ =>
                          match map_to_datahub_id enquiry.primary_sector_display
                              dh_metadata "sector" "name" with
                          | .error e => .error e
                          | .ok sector =>
                            match metaGet dh_metadata "referral-source-activity" with
                            | .error e => .error e
                            | .ok rsaItems =>
                              match get_dh_id rsaItems "Website" with
                              | .error e => .error e
                              | .ok referral_source_activity =>
                                match metaGet dh_metadata "referral-source-website" with
                                | .error e => .error e
                                | .ok rswItems =>
                                  match get_dh_id rswItems "Invest in GREAT Britain" with
                                  | .error e => .error e
                                  | .ok referral_source_activity_website =>
                                    let payload : Payload :=
                                      { name := enquiry.company_name
                                        investor_company := company_id
                                        description := enquiry.project_description
                                        anonymous_description :=
                                          enquiry.anonymised_project_description
                                        estimated_land_date :=
                                          isoformat enquiry.estimated_land_date
                                        investment_type := investment_type
                                        fdi_type := fdi_type
                                        stage := stage
                                        investor_type := investor_type
                                        level_of_involvement := level_of_involvement
                                        specific_programme := specific_programme
                                        client_contacts :=
                                          ["4ce2b0dd-a364-4e1e-9937-971f9001db0b"]
                                        client_relationship_manager :=
                                          adviser0.datahub_id
                                        sector := sector
                                        business_activities :=
                                          ["a2dbd807-ae52-421c-8d1d-88adfc7a506b"]
                                        referral_source_adviser :=
                                          adviser0.datahub_id
                                        referral_source_activity :=
                                          referral_source_activity
                                        referral_source_activity_website :=
                                          referral_source_activity_website }
                                    match w.create_resp payload with
                                    | .raises msg =>
                                      .ok (errRun "investment_create"
                                        ("Error creating investment, " ++ msg)
                                        enquiry)
                                    | .resp ok =>
                                      if ok then
                                        .ok ⟨⟨[], some true⟩,
                                          { enquiry with
                                            datahub_project_status := .PROSPECT
                                            date_added_to_datahub := some w.today },
                                          true⟩
                                      else
                                        .ok ⟨⟨[], some false⟩, enquiry, false⟩
                    else
                      .ok (errRun "adviser"
                        "Adviser name required, should not be empty" enquiry)

/-- `dh_investment_create(enquiry, metadata=None)` (source lines 283-413):
the company-id guard, the resubmission guard (whose body calls `strftime`
on `date_added_to_datahub` even when the guard fired on the status
disjunct alone and the date is `None`, raising `AttributeError`), the
vocabulary acquisition (whose success path applies `json.loads` to the dict
returned by `dh_fetch_metadata`), then the rest of the pipeline. -/
def dh_investment_create (w : World) (enquiry : Enquiry)
    (metadata : Option Metadata) : Except PyErr RunOutcome :=
  match truthyOpt enquiry.dh_company_id with
  | false =>
    .ok (errRun "company" (enquiry.company_name ++ " doesn't exist in Data Hub")
      enquiry)
  | true =>
    match enquiry.date_added_to_datahub.isSome
        || decide (enquiry.datahub_project_status ≠ .DEFAULT) with
    | true =>
      match enquiry.date_added_to_datahub with
      | none => .error (.attributeError "NoneType object has no attribute strftime")
      | some dt =>
        .ok (errRun "enquiry"
          ("Enquiry can only be submitted once, previously submitted on "
            ++ strftime_dBY dt ++ ", stage "
            ++ statusDisplay enquiry.datahub_project_status)
          enquiry)
    | false =>
      match metadata with
      | none =>
        match dh_fetch_metadata w.cache w.fetch with
        | .error _ => .ok (errRun "metadata" "Error fetching metadata" enquiry)
        | .ok md =>
          match json_loads_dict md with
          | .error e => .error e
          | .ok m => dh_investment_create_rest w enquiry m
      | some m => dh_investment_create_rest w enquiry m

/-- The enquiry state after the success-only mutation of step 8. -/
def mutEnquiry (e : Enquiry) (d : PyDate) : Enquiry :=
  { e with datahub_project_status := .PROSPECT, date_added_to_datahub := some d }

/- Concrete fixtures used by counterexamples, failing-input evaluations and
witnesses. -/

/-- An unsubmitted enquiry with a resolved remote company id. -/
def sampleEnquiry : Enquiry :=
  { dh_company_id := some "cid-1"
    company_name := "Acme Ltd"
    date_added_to_datahub := none
    datahub_project_status := .DEFAULT
    enquirer_first_name := "Jane"
    enquirer_last_name := "Doe"
    project_description := "a project"
    anonymised_project_description := "a project, anonymised"
    estimated_land_date := ⟨1, 2, 2021⟩
    investment_type_display := "Expansion"
    new_existing_investor_display := "New investor"
    investor_involvement_level_display := "FDI Hub + Post"
    specific_investment_programme_display := "Space"
    primary_sector_display := "Aerospace"
    crm := some "Data Hub user 1" }

/-- A vocabulary holding the nine categories the orchestrator reads
(`country` is fetched but never read). -/
def sampleMetadata : Metadata :=
  [("investment-type", [[("id", "it-1"), ("name", "FDI")]]),
   ("fdi-type", [[("id", "ft-1"), ("name", "Expansion")]]),
   ("investment-project-stage", [[("id", "st-1"), ("name", "Prospect")]]),
   ("investment-investor-type", [[("id", "nv-1"), ("name", "New investor")]]),
   ("investment-involvement", [[("id", "lv-1"), ("name", "FDI Hub + Post")]]),
   ("investment-specific-programme", [[("id", "sp-1"), ("name", "Space")]]),
   ("sector", [[("id", "se-1"), ("name", "Aerospace")]]),
   ("referral-source-activity", [[("id", "ra-1"), ("name", "Website")]]),
   ("referral-source-website",
    [[("id", "rw-1"), ("name", "Invest in GREAT Britain")]])]

/-- A world where every remote interaction succeeds: cache empty, every
vocabulary endpoint returns `ok`, contact search finds nothing, adviser
search finds one adviser, and the creation request returns a success. -/
def happyWorld : World :=
  { cache := none
    fetch := fun _ => .response true []
    contact_resp := fun _ _ => .resp true [] ""
    adviser_resp := fun _ =>
      .resp true [[("id", "adv-1"), ("first_name", "Adv"), ("is_active", "true")]] ""
    create_resp := fun _ => .resp true
    today := ⟨3, 4, 2021⟩ }

/-- The outcome of the happy-path run of `dh_investment_create` on
`sampleEnquiry` with `sampleMetadata` under `happyWorld`. -/
def happyOutcome : RunOutcome :=
  ⟨⟨[], some true⟩, mutEnquiry sampleEnquiry ⟨3, 4, 2021⟩, true⟩

/-- An enquiry whose resubmission guard fires on the status disjunct alone:
non-default status with a null submission timestamp. -/
def c1Enquiry : Enquiry :=
  { sampleEnquiry with datahub_project_status := .PROSPECT }

/-- An enquiry with an empty relationship-manager name. -/
def c6Enquiry : Enquiry := { sampleEnquiry with crm := some "" }

/-- Endpoint outcomes where the `country` fetch raises a transport
exception and every other endpoint succeeds. -/
def c5failFetch : String → FetchOutcome := fun x =>
  if x == "country" then .raises "timeout" else .response true []

/-- Endpoint outcomes where the `sector` fetch returns a non-success HTTP
response and every other endpoint succeeds. -/
def c5okFetch : String → FetchOutcome := fun x =>
  if x == "sector" then .response false [] else .response true []

/-- A vocabulary holding `investment-type` (with its unique `FDI` entry) but
missing `fdi-type`, as after a partial refresh that failed on `fdi-type`. -/
def c10Metadata : Metadata :=
  [("investment-type", [[("id", "it-1"), ("name", "FDI")]])]

/-- An enquiry with no resolved remote company id. -/
def noCompanyEnquiry : Enquiry := { sampleEnquiry with dh_company_id := none }

/-! Helper lemmas about the field mapper, the fetch loop and the shape of
completed orchestrator runs. -/

/-- When every entry defines the target key, the effectful Python filter of
`map_to_datahub_id` and `get_dh_id` agrees with the pure `List.filter`. -/
theorem filterByKey_eq_ok (key val : String) :
    ∀ (entries : List Entry), (∀ d ∈ entries, (keyVal d key).isSome) →
    filterByKey entries key val =
      .ok (entries.filter (fun d => keyVal d key == some val))
  | [], _ => rfl
  | d :: rest, h => by
    obtain ⟨v, hv⟩ := Option.isSome_iff_exists.mp (h d (by simp))
    have ih := filterByKey_eq_ok key val rest (fun x hx => h x (by simp [hx]))
    by_cases hvv : v = val <;>
      simp [filterByKey, dictGet, hv, ih, hvv, List.filter_cons]

/-- The first element of a filtered list is the first element satisfying the
predicate. -/
theorem find?_eq_head_filter (p : α → Bool) (l : List α) :
    l.find? p = (l.filter p).head? := by
  induction l with
  | nil => rfl
  | cons a t ih =>
    cases hp : p a
    · rw [List.find?_cons_of_neg _ (by simp [hp]),
        List.filter_cons_of_neg (by simp [hp])]
      exact ih
    · rw [List.find?_cons_of_pos _ hp, List.filter_cons_of_pos hp]
      rfl

/-- Closed form of the metadata fetch loop when every endpoint returns a
response (no transport exception): failing endpoints land in `failed` in
order, successful ones in the category dict in order. -/
theorem fetchLoop_eq (fetch : String → FetchOutcome) (e : String)
    (jsF : List Entry) (body : String → List Entry) :
    ∀ (L : List String) (acc : MetadataResult),
    (∀ x ∈ L, fetch x = if x == e then FetchOutcome.response false jsF
      else FetchOutcome.response true (body x)) →
    fetchLoop fetch L acc =
      .ok ⟨acc.failed ++ L.filter (fun x => x == e),
        acc.cats ++ (L.filter (fun x => !(x == e))).map (fun x => (x, body x))⟩
  | [], acc, _ => by simp [fetchLoop]
  | x :: rest, acc, h => by
    have hrest : ∀ y ∈ rest, fetch y =
        if y == e then FetchOutcome.response false jsF
        else FetchOutcome.response true (body y) :=
      fun y hy => h y (List.mem_cons_of_mem x hy)
    by_cases hxe : x = e
    · subst hxe
      have hx : fetch x = FetchOutcome.response false jsF := by
        rw [h x (List.mem_cons_self x rest)]; simp
      have ih := fetchLoop_eq fetch x jsF body rest
        { acc with failed := acc.failed ++ [x] } hrest
      simp [fetchLoop, hx, ih, List.filter_cons]
    · have hx : fetch x = FetchOutcome.response true (body x) := by
        rw [h x (List.mem_cons_self x rest)]; simp [hxe]
      have ih := fetchLoop_eq fetch e jsF body rest
        { acc with cats := acc.cats ++ [(x, body x)] } hrest
      simp [fetchLoop, hx, ih, hxe, List.filter_cons]

/-- Every completed (non-raising) run of the pipeline tail is either the
success outcome — empty errors, recorded success result, the two-field
mutation, persisted — or leaves the enquiry untouched and unsaved with
either an empty error list and a recorded failure result, or exactly one
error and no recorded result. -/
theorem rest_shape (w : World) (e : Enquiry) (m : Metadata) (out : RunOutcome)
    (h : dh_investment_create_rest w e m = .ok out) :
    (out.resp = ⟨[], some true⟩ ∧ out.enquiry = mutEnquiry e w.today ∧
      out.saved = true) ∨
    (out.enquiry = e ∧ out.saved = false ∧
      ((out.resp.errors = [] ∧ out.resp.result = some false) ∨
        ∃ k msg, out.resp = ⟨[⟨k, msg⟩], none⟩)) := by
  unfold dh_investment_create_rest at h
  dsimp only at h
  repeat' split at h
  all_goals (try (exact Except.noConfusion h))
  all_goals (injection h with h; subst h)
  all_goals first
    | exact Or.inl ⟨rfl, rfl, rfl⟩
    | exact Or.inr ⟨rfl, rfl, Or.inl ⟨rfl, rfl⟩⟩
    | exact Or.inr ⟨rfl, rfl, Or.inr ⟨_, _, rfl⟩⟩

/-- The same shape property for every completed run of the whole
orchestrator; in the success case the company-id guard is known to have
passed. -/
theorem run_shape (w : World) (e : Enquiry) (md : Option Metadata)
    (out : RunOutcome) (h : dh_investment_create w e md = .ok out) :
    (out.resp = ⟨[], some true⟩ ∧ out.enquiry = mutEnquiry e w.today ∧
      out.saved = true ∧ truthyOpt e.dh_company_id = true) ∨
    (out.enquiry = e ∧ out.saved = false ∧
      ((out.resp.errors = [] ∧ out.resp.result = some false) ∨
        ∃ k msg, out.resp = ⟨[⟨k, msg⟩], none⟩)) := by
  unfold dh_investment_create at h
  split at h
  · -- no remote company id
    injection h with h; subst h
    exact Or.inr ⟨rfl, rfl, Or.inr ⟨_, _, rfl⟩⟩
  · -- company id present
    rename_i htr
    split at h
    · -- resubmission guard fired
      split at h
      · exact Except.noConfusion h
      · injection h with h; subst h
        exact Or.inr ⟨rfl, rfl, Or.inr ⟨_, _, rfl⟩⟩
    · -- guard passed
      split at h
      · -- metadata is None
        split at h
        · injection h with h; subst h
          exact Or.inr ⟨rfl, rfl, Or.inr ⟨_, _, rfl⟩⟩
        · split at h
          · exact Except.noConfusion h
          · rename_i heqj
            simp [json_loads_dict] at heqj
      · -- metadata supplied
        rename_i m
        rcases rest_shape w e m out h with ⟨h1, h2, h3⟩ | hB
        · exact Or.inl ⟨h1, h2, h3, htr⟩
        · exact Or.inr hB

/-! The claims. -/

/-- C1: the claim states that every enquiry whose submission timestamp is
non-null or whose status is non-default — explicitly including the case of a
non-default status with a null timestamp — gets back the single `enquiry`
error. On the code, the guard condition (line 303) does admit that case, but
its body then calls `strftime` on the null `date_added_to_datahub`
(line 307), raising `AttributeError` instead of returning the error: this
theorem evaluates the embedded code at that failing input. -/
theorem C1_resubmission_guard_crashes_on_null_date :
    dh_investment_create happyWorld c1Enquiry none =
      .error (.attributeError "NoneType object has no attribute strftime") := rfl

/-- C2: in every completed run, the status is advanced to `PROSPECT` and the
timestamp stamped with the current date — both together, persisted — exactly
when the creation request was sent and returned a success response; whenever
the returned result is not a success (and in particular whenever the errors
list is non-empty) the enquiry is bitwise unchanged and never saved. -/
theorem C2_state_mutation_iff_success (w : World) (e : Enquiry)
    (md : Option Metadata) (out : RunOutcome)
    (h : dh_investment_create w e md = .ok out) :
    (out.resp.result = some true → out.saved = true ∧
      out.enquiry = mutEnquiry e w.today) ∧
    (out.resp.result ≠ some true → out.saved = false ∧ out.enquiry = e) ∧
    (out.resp.errors ≠ [] → out.resp.result = none ∧ out.saved = false ∧
      out.enquiry = e) := by
  rcases run_shape w e md out h with ⟨h1, h2, h3, _⟩ | ⟨h1, h2, h3⟩
  · refine ⟨fun _ => ⟨h3, h2⟩, fun hne => absurd (by rw [h1]) hne,
      fun hne => absurd (by rw [h1]) hne⟩
  · rcases h3 with ⟨he, hr⟩ | ⟨k, msg, hres⟩
    · exact ⟨fun ht => absurd (hr.symm.trans ht) (by simp),
        fun _ => ⟨h2, h1⟩, fun hne => absurd he hne⟩
    · refine ⟨fun ht => ?_, fun _ => ⟨h2, h1⟩, fun _ => ⟨by rw [hres], h2, h1⟩⟩
      rw [hres] at ht
      exact absurd ht (by simp)

/-- Witness for C2: the happy-path run completes with a success result and
the theorem yields the two-field mutation. -/
theorem C2_state_mutation_iff_success_witness :
    dh_investment_create happyWorld sampleEnquiry (some sampleMetadata) =
      .ok happyOutcome ∧
    happyOutcome.saved = true ∧
    happyOutcome.enquiry = mutEnquiry sampleEnquiry happyWorld.today :=
  ⟨rfl, (C2_state_mutation_iff_success happyWorld sampleEnquiry
    (some sampleMetadata) happyOutcome rfl).1 rfl⟩

/-- C3: with no supplied vocabulary, the claim states that a failed metadata
acquisition yields the single `metadata` error and a successful one lets the
pipeline proceed, no exception escaping. On the code, `dh_fetch_metadata`
always returns a dict, and line 323 applies `json.loads` to it outside the
`try` block, so the success path always raises `TypeError`: this theorem
evaluates the embedded code at such an input (cache empty, all ten endpoint
fetches succeeding). -/
theorem C3_metadata_success_path_raises_typeerror :
    dh_investment_create happyWorld sampleEnquiry none =
      .error (.typeError
        "the JSON object must be str, bytes or bytearray, not dict") := rfl

/-- C4: every completed run returns at most one error, and the first
disqualifying step wins — one conjunct per error-producing step of the
pipeline, each stating that when every earlier step's condition passed and
this step's disqualifying condition holds, the run is exactly that step's
single error. In source order: the step-1 missing-company error, the step-2
resubmission error, the step-3 metadata-fetch error, the step-4
contact-search error, then — under the payload lookups the code performs
between the contact and adviser steps — the adviser-required error, the
adviser-search error, the adviser-not-found error, and the step-7
creation-transport error (runs in which a lookup raises return no
`SubmissionResult` at all, so no completed run mixes steps). -/
theorem C4_at_most_one_error_first_step_wins (w : World) (e : Enquiry) :
    (∀ md out, dh_investment_create w e md = .ok out →
      out.resp.errors.length ≤ 1) ∧
    (∀ md, truthyOpt e.dh_company_id = false →
      dh_investment_create w e md =
        .ok (errRun "company"
          (e.company_name ++ " doesn't exist in Data Hub") e)) ∧
    (∀ md dt, truthyOpt e.dh_company_id = true →
      e.date_added_to_datahub = some dt →
      dh_investment_create w e md =
        .ok (errRun "enquiry"
          ("Enquiry can only be submitted once, previously submitted on "
            ++ strftime_dBY dt ++ ", stage "
            ++ statusDisplay e.datahub_project_status) e)) ∧
    (∀ err, truthyOpt e.dh_company_id = true →
      e.date_added_to_datahub = none →
      e.datahub_project_status = DatahubProjectStatus.DEFAULT →
      dh_fetch_metadata w.cache w.fetch = .error err →
      dh_investment_create w e none =
        .ok (errRun "metadata" "Error fetching metadata" e)) ∧
    (∀ voc cs err, truthyOpt e.dh_company_id = true →
      e.date_added_to_datahub = none →
      e.datahub_project_status = DatahubProjectStatus.DEFAULT →
      dh_contact_search (w.contact_resp
        (e.enquirer_first_name ++ " " ++ e.enquirer_last_name)
        (e.dh_company_id.getD "")) = .ok (cs, some err) →
      dh_investment_create w e (some voc) =
        .ok (errRun "contact_search" err e)) ∧
    (∀ voc cs ivItems stItems s1 s2 o1 o2 o3 o4,
      truthyOpt e.dh_company_id = true →
      e.date_added_to_datahub = none →
      e.datahub_project_status = DatahubProjectStatus.DEFAULT →
      dh_contact_search (w.contact_resp
        (e.enquirer_first_name ++ " " ++ e.enquirer_last_name)
        (e.dh_company_id.getD "")) = .ok (cs, none) →
      metaGet voc "investment-type" = .ok ivItems →
      get_dh_id ivItems "FDI" = .ok s1 →
      map_to_datahub_id e.investment_type_display voc "fdi-type" "name" =
        .ok o1 →
      metaGet voc "investment-project-stage" = .ok stItems →
      get_dh_id stItems "Prospect" = .ok s2 →
      map_to_datahub_id e.new_existing_investor_display voc
        "investment-investor-type" "name" = .ok o2 →
      map_to_datahub_id e.investor_involvement_level_display voc
        "investment-involvement" "name" = .ok o3 →
      map_to_datahub_id e.specific_investment_programme_display voc
        "investment-specific-programme" "name" = .ok o4 →
      truthyOpt e.crm = false →
      dh_investment_create w e (some voc) =
        .ok (errRun "adviser" "Adviser name required, should not be empty" e)) ∧
    (∀ voc cs ivItems stItems s1 s2 o1 o2 o3 o4 as_ err,
      truthyOpt e.dh_company_id = true →
      e.date_added_to_datahub = none →
      e.datahub_project_status = DatahubProjectStatus.DEFAULT →
      dh_contact_search (w.contact_resp
        (e.enquirer_first_name ++ " " ++ e.enquirer_last_name)
        (e.dh_company_id.getD "")) = .ok (cs, none) →
      metaGet voc "investment-type" = .ok ivItems →
      get_dh_id ivItems "FDI" = .ok s1 →
      map_to_datahub_id e.investment_type_display voc "fdi-type" "name" =
        .ok o1 →
      metaGet voc "investment-project-stage" = .ok stItems →
      get_dh_id stItems "Prospect" = .ok s2 →
      map_to_datahub_id e.new_existing_investor_display voc
        "investment-investor-type" "name" = .ok o2 →
      map_to_datahub_id e.investor_involvement_level_display voc
        "investment-involvement" "name" = .ok o3 →
      map_to_datahub_id e.specific_investment_programme_display voc
        "investment-specific-programme" "name" = .ok o4 →
      truthyOpt e.crm = true →
      dh_adviser_search (w.adviser_resp (e.crm.getD "")) =
        .ok (as_, some err) →
      dh_investment_create w e (some voc) =
        .ok (errRun "adviser_search" err e)) ∧
    (∀ voc cs ivItems stItems s1 s2 o1 o2 o3 o4,
      truthyOpt e.dh_company_id = true →
      e.date_added_to_datahub = none →
      e.datahub_project_status = DatahubProjectStatus.DEFAULT →
      dh_contact_search (w.contact_resp
        (e.enquirer_first_name ++ " " ++ e.enquirer_last_name)
        (e.dh_company_id.getD "")) = .ok (cs, none) →
      metaGet voc "investment-type" = .ok ivItems →
      get_dh_id ivItems "FDI" = .ok s1 →
      map_to_datahub_id e.investment_type_display voc "fdi-type" "name" =
        .ok o1 →
      metaGet voc "investment-project-stage" = .ok stItems →
      get_dh_id stItems "Prospect" = .ok s2 →
      map_to_datahub_id e.new_existing_investor_display voc
        "investment-investor-type" "name" = .ok o2 →
      map_to_datahub_id e.investor_involvement_level_display voc
        "investment-involvement" "name" = .ok o3 →
      map_to_datahub_id e.specific_investment_programme_display voc
        "investment-specific-programme" "name" = .ok o4 →
      truthyOpt e.crm = true →
      dh_adviser_search (w.adviser_resp (e.crm.getD "")) = .ok ([], none) →
      dh_investment_create w e (some voc) =
        .ok (errRun "adviser"
          ("Adviser " ++ e.crm.getD "" ++ " not found") e)) ∧
    (∀ voc cs ivItems stItems s1 s2 o1 o2 o3 o4 a0 rest o5 rsaItems s3
        rswItems s4 msg,
      truthyOpt e.dh_company_id = true →
      e.date_added_to_datahub = none →
      e.datahub_project_status = DatahubProjectStatus.DEFAULT →
      dh_contact_search (w.contact_resp
        (e.enquirer_first_name ++ " " ++ e.enquirer_last_name)
        (e.dh_company_id.getD "")) = .ok (cs, none) →
      metaGet voc "investment-type" = .ok ivItems →
      get_dh_id ivItems "FDI" = .ok s1 →
      map_to_datahub_id e.investment_type_display voc "fdi-type" "name" =
        .ok o1 →
      metaGet voc "investment-project-stage" = .ok stItems →
      get_dh_id stItems "Prospect" = .ok s2 →
      map_to_datahub_id e.new_existing_investor_display voc
        "investment-investor-type" "name" = .ok o2 →
      map_to_datahub_id e.investor_involvement_level_display voc
        "investment-involvement" "name" = .ok o3 →
      map_to_datahub_id e.specific_investment_programme_display voc
        "investment-specific-programme" "name" = .ok o4 →
      truthyOpt e.crm = true →
      dh_adviser_search (w.adviser_resp (e.crm.getD "")) =
        .ok (a0 :: rest, none) →
      map_to_datahub_id e.primary_sector_display voc "sector" "name" =
        .ok o5 →
      metaGet voc "referral-source-activity" = .ok rsaItems →
      get_dh_id rsaItems "Website" = .ok s3 →
      metaGet voc "referral-source-website" = .ok rswItems →
      get_dh_id rswItems "Invest in GREAT Britain" = .ok s4 →
      (∀ p, w.create_resp p = CreateOutcome.raises msg) →
      dh_investment_create w e (some voc) =
        .ok (errRun "investment_create"
          ("Error creating investment, " ++ msg) e)) := by
  refine ⟨?_, ?_, ?_, ?_, ?_, ?_, ?_, ?_, ?_⟩
  · intro md out h
    rcases run_shape w e md out h with ⟨h1, _, _, _⟩ | ⟨_, _, h3⟩
    · rw [h1]; decide
    · rcases h3 with ⟨he, _⟩ | ⟨k, msg, hres⟩
      · rw [he]; decide
      · rw [hres]; simp
  · intro md hfalse
    simp [dh_investment_create, hfalse]
  · intro md dt htr hdt
    simp [dh_investment_create, htr, hdt]
  · intro err htr hdate hstat hferr
    simp [dh_investment_create, htr, hdate, hstat, hferr]
  · intro voc cs err htr hdate hstat hcontact
    simp [dh_investment_create, dh_investment_create_rest, htr, hdate, hstat,
      hcontact]
  · intro voc cs ivItems stItems s1 s2 o1 o2 o3 o4 htr hdate hstat hcontact
      hiv hfdi hm1 hst hpros hm2 hm3 hm4 hcrm
    simp [dh_investment_create, dh_investment_create_rest, htr, hdate, hstat,
      hcontact, hiv, hfdi, hm1, hst, hpros, hm2, hm3, hm4, hcrm]
  · intro voc cs ivItems stItems s1 s2 o1 o2 o3 o4 as_ err htr hdate hstat
      hcontact hiv hfdi hm1 hst hpros hm2 hm3 hm4 hcrm hadv
    simp [dh_investment_create, dh_investment_create_rest, htr, hdate, hstat,
      hcontact, hiv, hfdi, hm1, hst, hpros, hm2, hm3, hm4, hcrm, hadv]
  · intro voc cs ivItems stItems s1 s2 o1 o2 o3 o4 htr hdate hstat hcontact
      hiv hfdi hm1 hst hpros hm2 hm3 hm4 hcrm hadv
    simp [dh_investment_create, dh_investment_create_rest, htr, hdate, hstat,
      hcontact, hiv, hfdi, hm1, hst, hpros, hm2, hm3, hm4, hcrm, hadv]
  · intro voc cs ivItems stItems s1 s2 o1 o2 o3 o4 a0 rest o5 rsaItems s3
      rswItems s4 msg htr hdate hstat hcontact hiv hfdi hm1 hst hpros hm2
      hm3 hm4 hcrm hadv hsec hrsa hweb hrsw hinv hcr
    simp [dh_investment_create, dh_investment_create_rest, htr, hdate, hstat,
      hcontact, hiv, hfdi, hm1, hst, hpros, hm2, hm3, hm4, hcrm, hadv, hsec,
      hrsa, hweb, hrsw, hinv, hcr]

/-- Witness for C4: an enquiry with no remote company id gets exactly the
single `company` error. -/
theorem C4_at_most_one_error_first_step_wins_witness :
    dh_investment_create happyWorld noCompanyEnquiry none =
      .ok (errRun "company"
        (noCompanyEnquiry.company_name ++ " doesn't exist in Data Hub")
        noCompanyEnquiry) :=
  (C4_at_most_one_error_first_step_wins happyWorld noCompanyEnquiry).2.1
    none rfl

/-- C5 counterexample: the claim says a refresh in which exactly one of the
ten categories fails to fetch never raises. When the one failing category
fails with a transport exception rather than a non-success response (here
`country` times out, all other endpoints succeed), `_dh_fetch_metadata` has
no handler — line 92 calls `requests.get` outside any `try` — and the
exception escapes to the caller. -/
theorem C5_transport_exception_escapes :
    dh_fetch_metadata_raw c5failFetch =
      .error (.requestException "timeout") := rfl

/-- C5 as amended: when exactly one of the ten categories returns a
non-success HTTP response and every other request returns a success response
(no request raising a transport exception), the fetch returns the other nine
categories fully populated and a `failed` set of size one, raising nothing. -/
theorem C5_single_http_failure_partial_success (fetch : String → FetchOutcome)
    (e : String) (jsF : List Entry) (body : String → List Entry)
    (he : e ∈ DATA_HUB_METADATA_ENDPOINTS)
    (hfail : fetch e = FetchOutcome.response false jsF)
    (hok : ∀ x ∈ DATA_HUB_METADATA_ENDPOINTS, x ≠ e →
      fetch x = FetchOutcome.response true (body x)) :
    dh_fetch_metadata_raw fetch =
      .ok ⟨[e], (DATA_HUB_METADATA_ENDPOINTS.filter (fun x => !(x == e))).map
        (fun x => (x, body x))⟩ ∧
    ((DATA_HUB_METADATA_ENDPOINTS.filter (fun x => !(x == e))).map
      (fun x => (x, body x))).length = 9 := by
  have h : ∀ x ∈ DATA_HUB_METADATA_ENDPOINTS,
      fetch x = if x == e then FetchOutcome.response false jsF
        else FetchOutcome.response true (body x) := by
    intro x hx
    by_cases hxe : x = e
    · subst hxe; simp [hfail]
    · simp [hxe, hok x hx hxe]
  have hrun := fetchLoop_eq fetch e jsF body DATA_HUB_METADATA_ENDPOINTS
    ⟨[], []⟩ h
  have hfe : DATA_HUB_METADATA_ENDPOINTS.filter (fun x => x == e) = [e] := by
    simp only [DATA_HUB_METADATA_ENDPOINTS, List.mem_cons,
      List.not_mem_nil, or_false] at he
    rcases he with rfl | rfl | rfl | rfl | rfl | rfl | rfl | rfl | rfl | rfl <;>
      decide
  constructor
  · rw [dh_fetch_metadata_raw, hrun, hfe]
    simp
  · rw [List.length_map]
    simp only [DATA_HUB_METADATA_ENDPOINTS, List.mem_cons,
      List.not_mem_nil, or_false] at he
    rcases he with rfl | rfl | rfl | rfl | rfl | rfl | rfl | rfl | rfl | rfl <;>
      decide

/-- Witness for C5: the `sector` endpoint returns a non-success response,
the nine others succeed. -/
theorem C5_single_http_failure_partial_success_witness :
    dh_fetch_metadata_raw c5okFetch =
      .ok ⟨["sector"], (DATA_HUB_METADATA_ENDPOINTS.filter
        (fun x => !(x == "sector"))).map (fun x => (x, ([] : List Entry)))⟩ ∧
    ((DATA_HUB_METADATA_ENDPOINTS.filter (fun x => !(x == "sector"))).map
      (fun x => (x, ([] : List Entry)))).length = 9 :=
  C5_single_http_failure_partial_success c5okFetch "sector" []
    (fun _ => []) (by decide) rfl (by decide)

/-- C6 counterexample: the claim says the adviser-name check fires for every
acquired vocabulary, whatever categories it contains, because step 5
precedes step 6. In the code most of the payload assembly (lines 340-367)
precedes the `enquiry.crm` check (line 369): on an enquiry with an empty
relationship-manager name and an empty vocabulary, the run raises
`KeyError` at the `investment-type` lookup instead of returning the
`adviser` error. -/
theorem C6_payload_assembly_precedes_adviser_check :
    dh_investment_create happyWorld c6Enquiry (some []) =
      .error (.keyError "investment-type") := rfl

/-- C6 as amended: for every enquiry passing steps 1-4 with an empty
relationship-manager name, the run returns exactly the single `adviser`
required-name error and mutates nothing — for every acquired vocabulary on
which the six payload lookups that the code performs before the adviser
check succeed (`investment-type` with its unique `FDI` entry, `fdi-type`,
`investment-project-stage` with its unique `Prospect` entry,
`investment-investor-type`, `investment-involvement`,
`investment-specific-programme`). -/
theorem C6_adviser_name_required (w : World) (e : Enquiry) (voc : Metadata)
    (cs : List Contact) (ivItems stItems : List Entry) (s1 s2 : String)
    (o1 o2 o3 o4 : Option String)
    (hco : truthyOpt e.dh_company_id = true)
    (hdate : e.date_added_to_datahub = none)
    (hstat : e.datahub_project_status = DatahubProjectStatus.DEFAULT)
    (hcontact : dh_contact_search (w.contact_resp
      (e.enquirer_first_name ++ " " ++ e.enquirer_last_name)
      (e.dh_company_id.getD "")) = .ok (cs, none))
    (hiv : metaGet voc "investment-type" = .ok ivItems)
    (hfdi : get_dh_id ivItems "FDI" = .ok s1)
    (hm1 : map_to_datahub_id e.investment_type_display voc "fdi-type" "name" =
      .ok o1)
    (hst : metaGet voc "investment-project-stage" = .ok stItems)
    (hpros : get_dh_id stItems "Prospect" = .ok s2)
    (hm2 : map_to_datahub_id e.new_existing_investor_display voc
      "investment-investor-type" "name" = .ok o2)
    (hm3 : map_to_datahub_id e.investor_involvement_level_display voc
      "investment-involvement" "name" = .ok o3)
    (hm4 : map_to_datahub_id e.specific_investment_programme_display voc
      "investment-specific-programme" "name" = .ok o4)
    (hcrm : truthyOpt e.crm = false) :
    dh_investment_create w e (some voc) =
      .ok (errRun "adviser" "Adviser name required, should not be empty" e) := by
  simp [dh_investment_create, dh_investment_create_rest, hco, hdate, hstat,
    hcontact, hiv, hfdi, hm1, hst, hpros, hm2, hm3, hm4, hcrm]

/-- Witness for C6: the empty-crm enquiry under the full sample vocabulary
returns exactly the `adviser` error. -/
theorem C6_adviser_name_required_witness :
    dh_investment_create happyWorld c6Enquiry (some sampleMetadata) =
      .ok (errRun "adviser" "Adviser name required, should not be empty"
        c6Enquiry) :=
  C6_adviser_name_required happyWorld c6Enquiry sampleMetadata [] _ _ _ _ _ _
    _ _ rfl rfl rfl rfl rfl rfl rfl rfl rfl rfl rfl rfl rfl

/-- C7: for every vocabulary containing the requested category, with
entries carrying the display key and an `id` (the shape of
`ReferenceVocabulary` entries), `map_to_datahub_id` returns the identifier
of the first entry whose display field equals the given value, and `None`
when no entry matches — a zero-match lookup is a normal `.ok` return, never
an error. -/
theorem C7_resolve_first_match_or_null (voc : Metadata) (cat key val : String)
    (entries : List Entry) (hcat : lookupCat voc cat = some entries)
    (hwf : ∀ d ∈ entries, (keyVal d key).isSome ∧ (keyVal d "id").isSome) :
    map_to_datahub_id val voc cat key =
      .ok ((entries.find? (fun d => keyVal d key == some val)).bind
        (fun d => keyVal d "id")) := by
  have hm : metaGet voc cat = .ok entries := by simp [metaGet, hcat]
  unfold map_to_datahub_id
  rw [hm]
  dsimp only
  rw [filterByKey_eq_ok key val entries (fun d hd => (hwf d hd).1),
    find?_eq_head_filter]
  cases hfl : entries.filter (fun d => keyVal d key == some val) with
  | nil => simp
  | cons d0 tail =>
    have hd0mem : d0 ∈ entries :=
      (List.mem_filter.mp (hfl ▸ List.mem_cons_self d0 tail)).1
    obtain ⟨i, hi⟩ := Option.isSome_iff_exists.mp (hwf d0 hd0mem).2
    simp [dictGet, hi]

/-- Witness for C7: resolving `Aerospace` in the sample vocabulary's
`sector` category yields its identifier. -/
theorem C7_resolve_first_match_or_null_witness :
    map_to_datahub_id "Aerospace" sampleMetadata "sector" "name" =
      .ok (some "se-1") :=
  (C7_resolve_first_match_or_null sampleMetadata "sector" "name" "Aerospace"
    _ rfl (by decide)).trans (by rfl)

/-- C8: for entries carrying `name` and `id` keys, `get_dh_id` raises its
hard `AssertionError` exactly when the number of entries whose `name`
equals the given name differs from one, and otherwise returns the unique
matching entry's identifier — in contrast to the permissive
`map_to_datahub_id`, which returns `None` on a miss (C7). -/
theorem C8_get_dh_id_unique_match (items : List Entry) (name : String)
    (hwf : ∀ d ∈ items, (keyVal d "name").isSome ∧ (keyVal d "id").isSome) :
    ((items.filter (fun d => keyVal d "name" == some name)).length ≠ 1 →
      get_dh_id items name = .error .assertionError) ∧
    (∀ d0, items.filter (fun d => keyVal d "name" == some name) = [d0] →
      ∃ i, keyVal d0 "id" = some i ∧ get_dh_id items name = .ok i) := by
  have hf := filterByKey_eq_ok "name" name items (fun d hd => (hwf d hd).1)
  constructor
  · intro hne
    unfold get_dh_id
    rw [hf]
    cases hfl : items.filter (fun d => keyVal d "name" == some name) with
    | nil => rfl
    | cons d0 tail =>
      cases tail with
      | nil => exact absurd (by rw [hfl]; rfl) hne
      | cons d1 t2 => rfl
  · intro d0 hfl
    have hd0mem : d0 ∈ items :=
      (List.mem_filter.mp (hfl ▸ List.mem_cons_self d0 [])).1
    obtain ⟨i, hi⟩ := Option.isSome_iff_exists.mp (hwf d0 hd0mem).2
    refine ⟨i, hi, ?_⟩
    unfold get_dh_id
    rw [hf, hfl]
    simp [dictGet, hi]

/-- Witness for C8: on an empty entry list (zero matches) the lookup is the
hard assertion failure. -/
theorem C8_get_dh_id_unique_match_witness :
    get_dh_id ([] : List Entry) "FDI" = .error .assertionError :=
  (C8_get_dh_id_unique_match [] "FDI" (by simp)).1 (by decide)

/-- C9: after any completed run that returned a success response, a second
submission of the resulting enquiry — under any world and any supplied
vocabulary, so with no dependence on anything past step 2 — returns exactly
the single `enquiry` resubmission error and mutates nothing. -/
theorem C9_resubmit_after_success_hits_guard (w w2 : World) (e : Enquiry)
    (md md2 : Option Metadata) (out : RunOutcome)
    (h : dh_investment_create w e md = .ok out)
    (hok : out.resp.result = some true) :
    dh_investment_create w2 out.enquiry md2 =
      .ok (errRun "enquiry"
        ("Enquiry can only be submitted once, previously submitted on "
          ++ strftime_dBY w.today ++ ", stage "
          ++ statusDisplay DatahubProjectStatus.PROSPECT) out.enquiry) := by
  rcases run_shape w e md out h with ⟨h1, h2, h3, h4⟩ | ⟨h1, h2, h3⟩
  · rw [h2]
    simp [dh_investment_create, mutEnquiry, h4, errRun]
  · exfalso
    rcases h3 with ⟨_, hr⟩ | ⟨k, msg, hres⟩
    · rw [hr] at hok; exact absurd hok (by simp)
    · rw [hres] at hok; exact absurd hok (by simp)

/-- Witness for C9: resubmitting the happy-path outcome hits the guard. -/
theorem C9_resubmit_after_success_hits_guard_witness :
    dh_investment_create happyWorld happyOutcome.enquiry none =
      .ok (errRun "enquiry"
        ("Enquiry can only be submitted once, previously submitted on "
          ++ strftime_dBY happyWorld.today ++ ", stage "
          ++ statusDisplay DatahubProjectStatus.PROSPECT)
        happyOutcome.enquiry) :=
  C9_resubmit_after_success_hits_guard happyWorld happyWorld sampleEnquiry
    (some sampleMetadata) none happyOutcome rfl rfl

/-- C10: on a metadata dictionary missing the requested category,
`map_to_datahub_id` raises `KeyError` rather than returning `None` — and
the orchestrator's mapped-field lookups are not protected against it: under
a partially refreshed vocabulary holding `investment-type` but missing
`fdi-type`, the whole submission raises `KeyError` out of
`dh_investment_create`. -/
theorem C10_resolve_raises_on_missing_category (voc : Metadata)
    (cat key val : String) (h : lookupCat voc cat = none) :
    map_to_datahub_id val voc cat key = .error (.keyError cat) ∧
    dh_investment_create happyWorld sampleEnquiry (some c10Metadata) =
      .error (.keyError "fdi-type") := by
  constructor
  · simp [map_to_datahub_id, metaGet, h]
  · rfl

/-- Witness for C10: resolving any value in an empty vocabulary raises the
category `KeyError`. -/
theorem C10_resolve_raises_on_missing_category_witness :
    map_to_datahub_id "x" ([] : Metadata) "sector" "name" =
      .error (.keyError "sector") :=
  (C10_resolve_raises_on_missing_category [] "sector" "name" "x" rfl).1

end DH
